import Mathlib

set_option autoImplicit false

/-!
Verification of the fetch-aggregate-cache pipeline of the
cloudflare-analytics-display repository.

The embedding below is a shallow translation of
`src/services/analyticsService.js` (function `fetchAnalyticsData` and the
module-level `analyticsCache`), together with the shapes it consumes from the
Cloudflare GraphQL responses.  Conventions:

* All upstream counts are natural numbers; a JavaScript `x || 0` coalescing of
  an absent numeric field is modelled by the field simply being a `Nat`
  (absent = 0).
* `Math.round(r * 0.8)` on a natural number `r` is modelled exactly as the
  half-up rounding of `4*r/5`, i.e. `(8*r + 5) / 10` in `Nat` division.  The
  exact value `4*r/5` never has fractional part 1/2 (its fractional part is a
  multiple of 1/5), so no tie-breaking question arises and the binary
  floating-point evaluation agrees for every realistic magnitude.
* Floating-point division and `Math.round` in the cache-metric derivation are
  modelled over `ℚ` with half-up rounding.
* The two awaited HTTP POSTs are modelled by an environment carrying each
  query's outcome (`Except Unit _`); the number of POSTs actually issued in a
  run is returned explicitly so that claims about "queries attempted" are
  statable.  `checkSiteAvailability` catches all of its own errors and never
  throws, so it is modelled as an opaque value in the environment.
* The JS `try { ... } finally { analyticsCache.isUpdating = false }` is
  modelled by the wrapper `fetchAnalyticsData` clearing the flag on the state
  produced by the body `runPipeline`, whichever branch the body took.
-/

/-- One entry of a bucket's `responseStatusMap`.  The source reads the code as
`m.edgeResponseStatus || m.httpStatusCode`; both fields are modelled with
0 standing for an absent/falsy JS value (a code of 0 is outside every
classified range, exactly as an undefined code is in JS). -/
structure StatusEntry where
  edgeResponseStatus : Nat
  httpStatusCode : Nat
  requests : Nat
deriving Repr, DecidableEq

/-- One raw hourly record of the primary (24 h) window, as destructured from
`httpRequests1hGroups`: `item.sum.*`, `item.uniq.uniques`,
`item.dimensions.datetime` (timestamps modelled as `Nat`). -/
structure RawBucket where
  datetime : Nat
  requests : Nat
  pageViews : Nat
  bytes : Nat
  threats : Nat
  uniques : Nat
  cachedRequests : Nat
  cachedBytes : Nat
  responseStatusMap : List StatusEntry
deriving Repr, DecidableEq

/-- One entry of a geo bucket's `countryMap` (the `bytes` member of the
upstream shape is never read by the rollup and is omitted). -/
structure GeoCountry where
  clientCountryName : String
  requests : Nat
deriving Repr, DecidableEq

/-- One raw hourly record of the secondary (3-day) window; only
`item.sum.countryMap` is read. -/
structure GeoBucket where
  countryMap : List GeoCountry
deriving Repr, DecidableEq

/-- The accumulator/result of the `timeseriesData.reduce` totals fold. -/
structure Totals where
  requests : Nat
  pageviews : Nat
  bytes : Nat
  threats : Nat
  uniques : Nat
  cachedRequests : Nat
  cachedBytes : Nat
deriving Repr, DecidableEq

/-- One step of the totals `reduce`. -/
def totalsStep (acc : Totals) (item : RawBucket) : Totals :=
  { requests := acc.requests + item.requests
    pageviews := acc.pageviews + item.pageViews
    bytes := acc.bytes + item.bytes
    threats := acc.threats + item.threats
    uniques := acc.uniques + item.uniques
    cachedRequests := acc.cachedRequests + item.cachedRequests
    cachedBytes := acc.cachedBytes + item.cachedBytes }

/-- The fold `timeseriesData.reduce(..., {requests: 0, ...})`. -/
def computeTotals (l : List RawBucket) : Totals :=
  l.foldl totalsStep ⟨0, 0, 0, 0, 0, 0, 0⟩

/-- One mapped element of the reporting `timeseries` array. -/
structure TimeseriesPoint where
  datetime : Nat
  requests : Nat
  pageviews : Nat
  bytes : Nat
  threats : Nat
  uniques : Nat
  cachedRequests : Nat
  cachedBytes : Nat
  responseStatusMap : List StatusEntry
deriving Repr, DecidableEq

/-- The `timeseriesData.map((item) => ({...}))` element construction. -/
def toPoint (item : RawBucket) : TimeseriesPoint :=
  { datetime := item.datetime
    requests := item.requests
    pageviews := item.pageViews
    bytes := item.bytes
    threats := item.threats
    uniques := item.uniques
    cachedRequests := item.cachedRequests
    cachedBytes := item.cachedBytes
    responseStatusMap := item.responseStatusMap }

/-- The mapped `timeseries` array before the zero-pageview substitution. -/
def timeseriesOf (l : List RawBucket) : List TimeseriesPoint :=
  l.map toPoint

/-- The value `Math.round(r * 0.8)` for a natural `r`: half-up rounding of `4*r/5`. -/
def jsRound08 (r : Nat) : Nat :=
  (8 * r + 5) / 10

/-- The test `timeseries.length > 0 && timeseries.every((pt) => (pt.pageviews || 0) === 0)`. -/
def allPageviewsZero (ts : List TimeseriesPoint) : Bool :=
  decide (0 < ts.length) && ts.all (fun pt => pt.pageviews == 0)

/-- The spread `{ ...pt, pageviews: Math.round((pt.requests || 0) * 0.8) }`. -/
def substitutePoint (pt : TimeseriesPoint) : TimeseriesPoint :=
  { pt with pageviews := jsRound08 pt.requests }

/-- The `if (allPageviewsZero) { ... }` block: substitute every point and
recompute `totals.pageviews` as the sum over the substituted points. -/
def applySubstitution (ts : List TimeseriesPoint) (t : Totals) :
    List TimeseriesPoint × Totals :=
  if allPageviewsZero ts then
    let ts' := ts.map substitutePoint
    (ts', { t with pageviews := (ts'.map (fun pt => pt.pageviews)).sum })
  else (ts, t)

/-- The `httpStatusAgg` object: buckets `2xx`, `3xx`, `4xx`, `5xx`. -/
structure HttpStatusAgg where
  s2xx : Nat
  s3xx : Nat
  s4xx : Nat
  s5xx : Nat
deriving Repr, DecidableEq

/-- The coalesced code `m.edgeResponseStatus || m.httpStatusCode`. -/
def statusCode (m : StatusEntry) : Nat :=
  if m.edgeResponseStatus ≠ 0 then m.edgeResponseStatus else m.httpStatusCode

/-- The classification cascade inside the `forEach` over a status map. -/
def statusStep (acc : HttpStatusAgg) (m : StatusEntry) : HttpStatusAgg :=
  if 200 ≤ statusCode m ∧ statusCode m < 300 then
    { acc with s2xx := acc.s2xx + m.requests }
  else if 300 ≤ statusCode m ∧ statusCode m < 400 then
    { acc with s3xx := acc.s3xx + m.requests }
  else if 400 ≤ statusCode m ∧ statusCode m < 500 then
    { acc with s4xx := acc.s4xx + m.requests }
  else if 500 ≤ statusCode m ∧ statusCode m < 600 then
    { acc with s5xx := acc.s5xx + m.requests }
  else acc

/-- The double `forEach` accumulating every point's status map. -/
def httpStatusOf (ts : List TimeseriesPoint) : HttpStatusAgg :=
  ts.foldl (fun acc pt => pt.responseStatusMap.foldl statusStep acc) ⟨0, 0, 0, 0⟩

/-- The update `countryTotals[countryName] = (countryTotals[countryName] || 0) + requests`
on a plain JS object.  For non-numeric string keys (country names) a JS object
enumerates its keys in first-insertion order, which this association list
reproduces: a new key is appended, an existing key is updated in place. -/
def addCountry (acc : List (String × Nat)) (name : String) (req : Nat) :
    List (String × Nat) :=
  match acc with
  | [] => [(name, req)]
  | (n, r) :: rest =>
      if n = name then (n, r + req) :: rest
      else (n, r) :: addCountry rest name req

/-- The nested `forEach` building `countryTotals`, then `Object.entries`. -/
def countryTotalsOf (g : List GeoBucket) : List (String × Nat) :=
  g.foldl
    (fun acc b =>
      b.countryMap.foldl
        (fun a c => addCountry a c.clientCountryName c.requests) acc)
    []

/-- One entry of the `geographic` rollup. -/
structure CountryRollupEntry where
  country : String
  requests : Nat
  pageviews : Nat
deriving Repr, DecidableEq

/-- The mapping `([country, requests]) => ({ country, requests, pageviews: Math.round(requests * 0.8) })`. -/
def mkRollupEntry (p : String × Nat) : CountryRollupEntry :=
  ⟨p.1, p.2, jsRound08 p.2⟩

/-- Stable insertion for descending order on `requests`: an element moves in
front of a later element only when its key is strictly larger, so equal keys
keep their original relative order — exactly the guarantee of the (stable)
`Array.prototype.sort` with comparator `(a, b) => b.requests - a.requests`. -/
def insertDesc (x : CountryRollupEntry) :
    List CountryRollupEntry → List CountryRollupEntry
  | [] => [x]
  | y :: ys =>
      if y.requests < x.requests ∨ y.requests = x.requests then x :: y :: ys
      else y :: insertDesc x ys

/-- Stable sort descending by `requests`. -/
def sortDescRequests : List CountryRollupEntry → List CountryRollupEntry
  | [] => []
  | x :: xs => insertDesc x (sortDescRequests xs)

/-- The chain `Object.entries(countryTotals).map(...).sort(...).slice(0, 10)`. -/
def geographicOf (g : List GeoBucket) : List CountryRollupEntry :=
  (sortDescRequests ((countryTotalsOf g).map mkRollupEntry)).take 10

/-- The `cache` member of the processed snapshot. -/
structure CacheMetrics where
  cachedRequests : Nat
  cachedBytes : Nat
  cacheRatio : ℚ
  estCachedPageviews : ℤ
  estCachedUniques : ℤ
deriving Repr, DecidableEq

/-- The function `Math.round` on a non-negative rational: half-up rounding. -/
def jsRoundQ (q : ℚ) : ℤ :=
  ⌊q + 1 / 2⌋

/-- The derivation of `cacheRatio`, `estCachedPageviews` and `estCachedUniques`. -/
def cacheMetricsOf (t : Totals) : CacheMetrics :=
  let ratio : ℚ := if 0 < t.requests then (t.cachedRequests : ℚ) / t.requests else 0
  { cachedRequests := t.cachedRequests
    cachedBytes := t.cachedBytes
    cacheRatio := ratio
    estCachedPageviews := jsRoundQ (t.pageviews * ratio)
    estCachedUniques := jsRoundQ (t.uniques * ratio) }

/-- Result of `checkSiteAvailability`; the pipeline merges it unmodified and
never branches on it, so its content is opaque to the claims. -/
structure SiteStatus where
  status : String
  message : String
deriving Repr, DecidableEq

/-- The `processedData` object committed to the cache on success. -/
structure Snapshot where
  timeseries : List TimeseriesPoint
  totals : Totals
  geographic : List CountryRollupEntry
  httpStatus : HttpStatusAgg
  cache : CacheMetrics
  siteStatus : SiteStatus
  lastUpdated : Nat
  refreshInterval : Nat
deriving Repr, DecidableEq

/-- The object returned from the catch block when no cached data exists: zero
totals (five fields only), empty arrays, and an explicit `error` string.  It
is never committed to the cache. -/
structure ErrorSnapshot where
  requests : Nat
  pageviews : Nat
  bytes : Nat
  threats : Nat
  uniques : Nat
  lastUpdated : Nat
  refreshInterval : Nat
  error : String
deriving Repr, DecidableEq

/-- The concrete error object built in the catch block. -/
def errorSnapshot (now refreshInterval : Nat) : ErrorSnapshot :=
  { requests := 0, pageviews := 0, bytes := 0, threats := 0, uniques := 0
    lastUpdated := now, refreshInterval := refreshInterval
    error := "Failed to fetch data from Cloudflare GraphQL API" }

/-- What a call to `fetchAnalyticsData` returns: `null` (the cached `data`
while it is still absent), a processed or cached snapshot, or the error
fallback object. -/
inductive FetchOutput where
  | nullData : FetchOutput
  | ok : Snapshot → FetchOutput
  | errorFallback : ErrorSnapshot → FetchOutput
deriving Repr, DecidableEq

/-- The module-level `analyticsCache` object. -/
structure CacheState where
  data : Option Snapshot
  lastUpdated : Option Nat
  isUpdating : Bool
deriving Repr, DecidableEq

/-- How many upstream POSTs a run issued, per query. -/
structure Queries where
  primary : Nat
  secondary : Nat
deriving Repr, DecidableEq

/-- The environment of one call: the clock, the configured refresh interval,
the outcome each upstream query would have if issued, and the (never-throwing)
site-availability result. -/
structure Env where
  now : Nat
  refreshInterval : Nat
  primary : Except Unit (List RawBucket)
  geo : Except Unit (List GeoBucket)
  site : SiteStatus

/-- The success-path construction of `processedData` from the two raw lists. -/
def buildSnapshot (env : Env) (tsData : List RawBucket) (geoData : List GeoBucket) :
    Snapshot :=
  let totals0 := computeTotals tsData
  let ts0 := timeseriesOf tsData
  let p := applySubstitution ts0 totals0
  { timeseries := p.1
    totals := p.2
    geographic := geographicOf geoData
    httpStatus := httpStatusOf p.1
    cache := cacheMetricsOf p.2
    siteStatus := env.site
    lastUpdated := env.now
    refreshInterval := env.refreshInterval }

/-- The geo bucket list actually used: on a geo failure the inner catch
substitutes a response with an empty `httpRequests1hGroups`. -/
def geoDataOf (env : Env) : List GeoBucket :=
  match env.geo with
  | .ok g => g
  | .error _ => []

/-- The body of the outer `try`/`catch` (entered with `isUpdating` already
set).  The primary POST is awaited first; if it throws, control jumps to the
catch block and the geo POST is never issued.  A geo failure is caught by the
inner `try`/`catch` and replaced by an empty bucket list. -/
def runPipeline (env : Env) (st : CacheState) :
    FetchOutput × CacheState × Queries :=
  match env.primary with
  | .error _ =>
      match st.data with
      | some s => (.ok s, st, ⟨1, 0⟩)
      | none => (.errorFallback (errorSnapshot env.now env.refreshInterval), st, ⟨1, 0⟩)
  | .ok tsData =>
      let snap := buildSnapshot env tsData (geoDataOf env)
      (.ok snap, { st with data := some snap, lastUpdated := some env.now }, ⟨1, 1⟩)

/-- The function `fetchAnalyticsData`: the single-flight guard, the pipeline body, and the
`finally` clause clearing `isUpdating` on whichever path the body exits. -/
def fetchAnalyticsData (env : Env) (st : CacheState) :
    FetchOutput × CacheState × Queries :=
  if st.isUpdating then
    (match st.data with
     | some s => .ok s
     | none => .nullData, st, ⟨0, 0⟩)
  else
    let r := runPipeline env { st with isUpdating := true }
    (r.1, { r.2.1 with isUpdating := false }, r.2.2)

/-! ## Helper lemmas about the aggregation -/

theorem foldl_totalsStep (l : List RawBucket) (acc : Totals) :
    l.foldl totalsStep acc =
      ⟨acc.requests + (l.map (fun b => b.requests)).sum,
       acc.pageviews + (l.map (fun b => b.pageViews)).sum,
       acc.bytes + (l.map (fun b => b.bytes)).sum,
       acc.threats + (l.map (fun b => b.threats)).sum,
       acc.uniques + (l.map (fun b => b.uniques)).sum,
       acc.cachedRequests + (l.map (fun b => b.cachedRequests)).sum,
       acc.cachedBytes + (l.map (fun b => b.cachedBytes)).sum⟩ := by
  induction l generalizing acc with
  | nil => simp
  | cons b t ih => simp [List.foldl_cons, ih, totalsStep, Nat.add_assoc]

theorem computeTotals_eq (l : List RawBucket) :
    computeTotals l =
      ⟨(l.map (fun b => b.requests)).sum,
       (l.map (fun b => b.pageViews)).sum,
       (l.map (fun b => b.bytes)).sum,
       (l.map (fun b => b.threats)).sum,
       (l.map (fun b => b.uniques)).sum,
       (l.map (fun b => b.cachedRequests)).sum,
       (l.map (fun b => b.cachedBytes)).sum⟩ := by
  simp [computeTotals, foldl_totalsStep]

theorem timeseriesOf_map_requests (l : List RawBucket) :
    (timeseriesOf l).map (fun p => p.requests) = l.map (fun b => b.requests) := by
  simp [timeseriesOf, toPoint, Function.comp]

theorem timeseriesOf_map_pageviews (l : List RawBucket) :
    (timeseriesOf l).map (fun p => p.pageviews) = l.map (fun b => b.pageViews) := by
  simp [timeseriesOf, toPoint, Function.comp]

theorem timeseriesOf_map_bytes (l : List RawBucket) :
    (timeseriesOf l).map (fun p => p.bytes) = l.map (fun b => b.bytes) := by
  simp [timeseriesOf, toPoint, Function.comp]

theorem timeseriesOf_map_threats (l : List RawBucket) :
    (timeseriesOf l).map (fun p => p.threats) = l.map (fun b => b.threats) := by
  simp [timeseriesOf, toPoint, Function.comp]

theorem timeseriesOf_map_uniques (l : List RawBucket) :
    (timeseriesOf l).map (fun p => p.uniques) = l.map (fun b => b.uniques) := by
  simp [timeseriesOf, toPoint, Function.comp]

theorem timeseriesOf_map_cachedRequests (l : List RawBucket) :
    (timeseriesOf l).map (fun p => p.cachedRequests) = l.map (fun b => b.cachedRequests) := by
  simp [timeseriesOf, toPoint, Function.comp]

theorem timeseriesOf_map_cachedBytes (l : List RawBucket) :
    (timeseriesOf l).map (fun p => p.cachedBytes) = l.map (fun b => b.cachedBytes) := by
  simp [timeseriesOf, toPoint, Function.comp]

theorem substitutePoint_requests (pt : TimeseriesPoint) :
    (substitutePoint pt).requests = pt.requests := rfl

theorem substitutePoint_map_field (ts : List TimeseriesPoint)
    (f : TimeseriesPoint → Nat) (hf : ∀ pt, f (substitutePoint pt) = f pt) :
    (ts.map substitutePoint).map f = ts.map f := by
  simp [List.map_map, Function.comp]
  exact fun pt _ => hf pt

/-- The timeseries and totals of the built snapshot, before cases on the
substitution flag. -/
theorem buildSnapshot_parts (env : Env) (tsData : List RawBucket)
    (geoData : List GeoBucket) :
    (buildSnapshot env tsData geoData).timeseries =
        (applySubstitution (timeseriesOf tsData) (computeTotals tsData)).1 ∧
    (buildSnapshot env tsData geoData).totals =
        (applySubstitution (timeseriesOf tsData) (computeTotals tsData)).2 ∧
    (buildSnapshot env tsData geoData).geographic = geographicOf geoData ∧
    (buildSnapshot env tsData geoData).httpStatus =
        httpStatusOf (buildSnapshot env tsData geoData).timeseries ∧
    (buildSnapshot env tsData geoData).cache =
        cacheMetricsOf (buildSnapshot env tsData geoData).totals := by
  refine ⟨rfl, rfl, rfl, rfl, rfl⟩

/-- On the non-updating path with a successful primary query, the call returns
the built snapshot, commits it, and issues both queries. -/
theorem fetchAnalyticsData_ok (env : Env) (st : CacheState)
    (buckets : List RawBucket)
    (hu : st.isUpdating = false) (hp : env.primary = .ok buckets) :
    fetchAnalyticsData env st =
      (.ok (buildSnapshot env buckets (geoDataOf env)),
       ⟨some (buildSnapshot env buckets (geoDataOf env)), some env.now, false⟩,
       ⟨1, 1⟩) := by
  simp [fetchAnalyticsData, hu, runPipeline, hp]

/-- On the non-updating path with a failing primary query, the call issues only
the primary query and leaves the cached data and timestamp unchanged. -/
theorem fetchAnalyticsData_primaryFail (env : Env) (st : CacheState)
    (e : Unit) (hu : st.isUpdating = false) (hp : env.primary = .error e) :
    fetchAnalyticsData env st =
      ((match st.data with
        | some s => .ok s
        | none => .errorFallback (errorSnapshot env.now env.refreshInterval)),
       st, ⟨1, 0⟩) := by
  cases st with
  | mk d lu iu =>
    subst hu
    cases d <;> simp [fetchAnalyticsData, runPipeline, hp]

theorem subst_map_requests (ts : List TimeseriesPoint) :
    ((ts.map substitutePoint).map (fun p => p.requests)) = ts.map (fun p => p.requests) :=
  substitutePoint_map_field ts _ (fun _ => rfl)

theorem subst_map_bytes (ts : List TimeseriesPoint) :
    ((ts.map substitutePoint).map (fun p => p.bytes)) = ts.map (fun p => p.bytes) :=
  substitutePoint_map_field ts _ (fun _ => rfl)

theorem subst_map_threats (ts : List TimeseriesPoint) :
    ((ts.map substitutePoint).map (fun p => p.threats)) = ts.map (fun p => p.threats) :=
  substitutePoint_map_field ts _ (fun _ => rfl)

theorem subst_map_uniques (ts : List TimeseriesPoint) :
    ((ts.map substitutePoint).map (fun p => p.uniques)) = ts.map (fun p => p.uniques) :=
  substitutePoint_map_field ts _ (fun _ => rfl)

theorem subst_map_cachedRequests (ts : List TimeseriesPoint) :
    ((ts.map substitutePoint).map (fun p => p.cachedRequests)) = ts.map (fun p => p.cachedRequests) :=
  substitutePoint_map_field ts _ (fun _ => rfl)

theorem subst_map_cachedBytes (ts : List TimeseriesPoint) :
    ((ts.map substitutePoint).map (fun p => p.cachedBytes)) = ts.map (fun p => p.cachedBytes) :=
  substitutePoint_map_field ts _ (fun _ => rfl)

theorem comp_requests_subst :
    ((fun p : TimeseriesPoint => p.requests) ∘ substitutePoint) = fun p => p.requests := rfl

theorem comp_bytes_subst :
    ((fun p : TimeseriesPoint => p.bytes) ∘ substitutePoint) = fun p => p.bytes := rfl

theorem comp_threats_subst :
    ((fun p : TimeseriesPoint => p.threats) ∘ substitutePoint) = fun p => p.threats := rfl

theorem comp_uniques_subst :
    ((fun p : TimeseriesPoint => p.uniques) ∘ substitutePoint) = fun p => p.uniques := rfl

theorem comp_cachedRequests_subst :
    ((fun p : TimeseriesPoint => p.cachedRequests) ∘ substitutePoint) = fun p => p.cachedRequests := rfl

theorem comp_cachedBytes_subst :
    ((fun p : TimeseriesPoint => p.cachedBytes) ∘ substitutePoint) = fun p => p.cachedBytes := rfl

/-- After the (possible) substitution, every summed field of the totals equals
the sum of that field over the final timeseries. -/
theorem applySubstitution_sums (l : List RawBucket) :
    ((applySubstitution (timeseriesOf l) (computeTotals l)).2).requests =
      ((applySubstitution (timeseriesOf l) (computeTotals l)).1.map (fun p => p.requests)).sum ∧
    ((applySubstitution (timeseriesOf l) (computeTotals l)).2).pageviews =
      ((applySubstitution (timeseriesOf l) (computeTotals l)).1.map (fun p => p.pageviews)).sum ∧
    ((applySubstitution (timeseriesOf l) (computeTotals l)).2).bytes =
      ((applySubstitution (timeseriesOf l) (computeTotals l)).1.map (fun p => p.bytes)).sum ∧
    ((applySubstitution (timeseriesOf l) (computeTotals l)).2).threats =
      ((applySubstitution (timeseriesOf l) (computeTotals l)).1.map (fun p => p.threats)).sum ∧
    ((applySubstitution (timeseriesOf l) (computeTotals l)).2).uniques =
      ((applySubstitution (timeseriesOf l) (computeTotals l)).1.map (fun p => p.uniques)).sum ∧
    ((applySubstitution (timeseriesOf l) (computeTotals l)).2).cachedRequests =
      ((applySubstitution (timeseriesOf l) (computeTotals l)).1.map (fun p => p.cachedRequests)).sum ∧
    ((applySubstitution (timeseriesOf l) (computeTotals l)).2).cachedBytes =
      ((applySubstitution (timeseriesOf l) (computeTotals l)).1.map (fun p => p.cachedBytes)).sum := by
  by_cases hz : allPageviewsZero (timeseriesOf l) = true
  · refine ⟨?_, ?_, ?_, ?_, ?_, ?_, ?_⟩ <;>
      simp [applySubstitution, hz, computeTotals_eq, comp_requests_subst, comp_bytes_subst,
            comp_threats_subst, comp_uniques_subst, comp_cachedRequests_subst,
            comp_cachedBytes_subst,
            timeseriesOf_map_requests, timeseriesOf_map_bytes, timeseriesOf_map_threats,
            timeseriesOf_map_uniques, timeseriesOf_map_cachedRequests,
            timeseriesOf_map_cachedBytes]
  · rw [Bool.not_eq_true] at hz
    refine ⟨?_, ?_, ?_, ?_, ?_, ?_, ?_⟩ <;>
      simp [applySubstitution, hz, computeTotals_eq, timeseriesOf_map_requests,
            timeseriesOf_map_pageviews, timeseriesOf_map_bytes, timeseriesOf_map_threats,
            timeseriesOf_map_uniques, timeseriesOf_map_cachedRequests,
            timeseriesOf_map_cachedBytes]

/-! ## Concrete example inputs -/

def siteEx : SiteStatus := ⟨"online", "HTTP 200 - 12ms"⟩

def bucketA : RawBucket :=
  { datetime := 0, requests := 10, pageViews := 0, bytes := 1000, threats := 1
    uniques := 4, cachedRequests := 6, cachedBytes := 500
    responseStatusMap := [⟨200, 0, 7⟩, ⟨404, 0, 3⟩] }

def bucketB : RawBucket :=
  { datetime := 1, requests := 20, pageViews := 0, bytes := 2000, threats := 0
    uniques := 5, cachedRequests := 8, cachedBytes := 700
    responseStatusMap := [⟨503, 0, 2⟩, ⟨301, 0, 1⟩, ⟨100, 0, 4⟩] }

def geoB1 : GeoBucket := ⟨[⟨"US", 100⟩, ⟨"DE", 50⟩, ⟨"FR", 200⟩]⟩

def envOk : Env := ⟨100, 30, .ok [bucketA, bucketB], .ok [geoB1], siteEx⟩

def envPrimaryFail : Env := ⟨100, 30, .error (), .ok [geoB1], siteEx⟩

def stEmpty : CacheState := ⟨none, none, false⟩

def snapS : Snapshot := buildSnapshot envOk [bucketA, bucketB] [geoB1]

def stWithData : CacheState := ⟨some snapS, some 50, false⟩

def stBusy : CacheState := ⟨some snapS, some 50, true⟩

def stBusyEmpty : CacheState := ⟨none, none, true⟩

/-- Like `bucketB` but with a non-zero page-view count, for the mixed-window
example. -/
def bucketC : RawBucket :=
  { datetime := 1, requests := 20, pageViews := 5, bytes := 2000, threats := 0
    uniques := 5, cachedRequests := 8, cachedBytes := 700
    responseStatusMap := [⟨503, 0, 2⟩, ⟨301, 0, 1⟩, ⟨100, 0, 4⟩] }

def envMixed : Env := ⟨100, 30, .ok [bucketA, bucketC], .ok [geoB1], siteEx⟩

/-- An environment whose secondary (geographic) query fails. -/
def envGeoFail : Env := ⟨100, 30, .ok [bucketA, bucketB], .error (), siteEx⟩

def snapMixed : Snapshot := buildSnapshot envMixed [bucketA, bucketC] [geoB1]

/-! ## Claims -/

/-- Claim C1: for every non-empty sequence of primary-window buckets, after
aggregation each summed field of the totals equals the sum of that field over
the produced timeseries points — including after the zero-pageview
substitution recomputes the page-view total. -/
theorem C1_totals_match_timeseries_sums (env : Env) (st : CacheState)
    (buckets : List RawBucket) (snap : Snapshot)
    (hu : st.isUpdating = false) (hp : env.primary = .ok buckets)
    (hne : buckets ≠ [])
    (hsnap : (fetchAnalyticsData env st).1 = .ok snap) :
    snap.totals.requests = (snap.timeseries.map (fun p => p.requests)).sum ∧
    snap.totals.pageviews = (snap.timeseries.map (fun p => p.pageviews)).sum ∧
    snap.totals.bytes = (snap.timeseries.map (fun p => p.bytes)).sum ∧
    snap.totals.threats = (snap.timeseries.map (fun p => p.threats)).sum ∧
    snap.totals.uniques = (snap.timeseries.map (fun p => p.uniques)).sum ∧
    snap.totals.cachedRequests = (snap.timeseries.map (fun p => p.cachedRequests)).sum ∧
    snap.totals.cachedBytes = (snap.timeseries.map (fun p => p.cachedBytes)).sum := by
  rw [fetchAnalyticsData_ok env st buckets hu hp] at hsnap
  simp only [FetchOutput.ok.injEq] at hsnap
  subst hsnap
  exact applySubstitution_sums buckets

/-- Witness for C1 at a concrete two-bucket input. -/
theorem C1_totals_match_timeseries_sums_witness :
    stEmpty.isUpdating = false ∧ envOk.primary = .ok [bucketA, bucketB] ∧
    [bucketA, bucketB] ≠ [] ∧
    (fetchAnalyticsData envOk stEmpty).1 = .ok snapS ∧
    (snapS.totals.requests = (snapS.timeseries.map (fun p => p.requests)).sum ∧
     snapS.totals.pageviews = (snapS.timeseries.map (fun p => p.pageviews)).sum ∧
     snapS.totals.bytes = (snapS.timeseries.map (fun p => p.bytes)).sum ∧
     snapS.totals.threats = (snapS.timeseries.map (fun p => p.threats)).sum ∧
     snapS.totals.uniques = (snapS.timeseries.map (fun p => p.uniques)).sum ∧
     snapS.totals.cachedRequests = (snapS.timeseries.map (fun p => p.cachedRequests)).sum ∧
     snapS.totals.cachedBytes = (snapS.timeseries.map (fun p => p.cachedBytes)).sum) :=
  ⟨rfl, rfl, by simp, rfl,
   C1_totals_match_timeseries_sums envOk stEmpty [bucketA, bucketB] snapS rfl rfl
     (by simp) rfl⟩

/-- Claim C2: the single-flight guard — a call entered with the in-flight flag
set returns the current cached data immediately, with no state change and no
upstream query; otherwise the flag is false again on return on every exit
path. -/
theorem C2_single_flight_guard (env : Env) (st : CacheState) :
    (st.isUpdating = true →
        fetchAnalyticsData env st =
          ((match st.data with
            | some s => FetchOutput.ok s
            | none => FetchOutput.nullData), st, ⟨0, 0⟩)) ∧
    (st.isUpdating = false →
        (fetchAnalyticsData env st).2.1.isUpdating = false) := by
  constructor
  · intro h
    simp [fetchAnalyticsData, h]
  · intro h
    simp [fetchAnalyticsData, h]

/-- Witness for C2: an in-flight call with cached data coalesces; a fresh call
ends with the flag cleared. -/
theorem C2_single_flight_guard_witness :
    (stBusy.isUpdating = true ∧
       fetchAnalyticsData envOk stBusy = (FetchOutput.ok snapS, stBusy, ⟨0, 0⟩)) ∧
    (stEmpty.isUpdating = false ∧
       (fetchAnalyticsData envOk stEmpty).2.1.isUpdating = false) :=
  ⟨⟨rfl, (C2_single_flight_guard envOk stBusy).1 rfl⟩,
   ⟨rfl, (C2_single_flight_guard envOk stEmpty).2 rfl⟩⟩

/-- Claim C3: when the primary query fails on a non-coalesced cycle, a prior
snapshot is returned unchanged with the cache left untouched; with no prior
snapshot, the zero-valued error object is returned and not committed. -/
theorem C3_stale_serve (env : Env) (st : CacheState) (e : Unit)
    (hu : st.isUpdating = false) (hp : env.primary = .error e) :
    (∀ s, st.data = some s →
        fetchAnalyticsData env st = (.ok s, st, ⟨1, 0⟩)) ∧
    (st.data = none →
        fetchAnalyticsData env st =
          (.errorFallback (errorSnapshot env.now env.refreshInterval), st, ⟨1, 0⟩)) := by
  have h := fetchAnalyticsData_primaryFail env st e hu hp
  constructor
  · intro s hs
    rw [h, hs]
  · intro hs
    rw [h, hs]

/-- Witness for C3: stale-serve with a prior snapshot, error fallback without. -/
theorem C3_stale_serve_witness :
    stWithData.isUpdating = false ∧ envPrimaryFail.primary = .error () ∧
    stWithData.data = some snapS ∧
    fetchAnalyticsData envPrimaryFail stWithData = (.ok snapS, stWithData, ⟨1, 0⟩) ∧
    stEmpty.data = none ∧
    fetchAnalyticsData envPrimaryFail stEmpty =
      (.errorFallback (errorSnapshot envPrimaryFail.now envPrimaryFail.refreshInterval),
       stEmpty, ⟨1, 0⟩) :=
  ⟨rfl, rfl, rfl,
   (C3_stale_serve envPrimaryFail stWithData () rfl rfl).1 snapS rfl,
   rfl,
   (C3_stale_serve envPrimaryFail stEmpty () rfl rfl).2 rfl⟩

/-- Claim C10: a call entered while a refresh is in flight and before any
snapshot was ever committed returns the absent value, not a zero-valued or
error-marked snapshot. -/
theorem C10_inflight_without_data_returns_null (env : Env) (st : CacheState)
    (hu : st.isUpdating = true) (hd : st.data = none) :
    fetchAnalyticsData env st = (.nullData, st, ⟨0, 0⟩) := by
  simp [fetchAnalyticsData, hu, hd]

/-- Witness for C10 at the fresh in-flight state. -/
theorem C10_inflight_without_data_returns_null_witness :
    stBusyEmpty.isUpdating = true ∧ stBusyEmpty.data = none ∧
    fetchAnalyticsData envOk stBusyEmpty = (.nullData, stBusyEmpty, ⟨0, 0⟩) :=
  ⟨rfl, rfl, C10_inflight_without_data_returns_null envOk stBusyEmpty rfl rfl⟩

/-- Claim C9: the cache metrics of a freshly produced snapshot are derived
from its totals by the ratio formula, with ratio 0 when there were no
requests at all. -/
theorem C9_cache_metrics_formula (env : Env) (st : CacheState)
    (buckets : List RawBucket) (snap : Snapshot)
    (hu : st.isUpdating = false) (hp : env.primary = .ok buckets)
    (hsnap : (fetchAnalyticsData env st).1 = .ok snap) :
    snap.cache.cacheRatio =
      (if 0 < snap.totals.requests then
        (snap.totals.cachedRequests : ℚ) / snap.totals.requests else 0) ∧
    snap.cache.estCachedPageviews =
      jsRoundQ ((snap.totals.pageviews : ℚ) * snap.cache.cacheRatio) ∧
    snap.cache.estCachedUniques =
      jsRoundQ ((snap.totals.uniques : ℚ) * snap.cache.cacheRatio) := by
  rw [fetchAnalyticsData_ok env st buckets hu hp] at hsnap
  simp only [FetchOutput.ok.injEq] at hsnap
  subst hsnap
  exact ⟨rfl, rfl, rfl⟩

/-- Witness for C9 at a concrete successful run. -/
theorem C9_cache_metrics_formula_witness :
    stEmpty.isUpdating = false ∧ envOk.primary = .ok [bucketA, bucketB] ∧
    (fetchAnalyticsData envOk stEmpty).1 = .ok snapS ∧
    (snapS.cache.cacheRatio =
       (if 0 < snapS.totals.requests then
         (snapS.totals.cachedRequests : ℚ) / snapS.totals.requests else 0) ∧
     snapS.cache.estCachedPageviews =
       jsRoundQ ((snapS.totals.pageviews : ℚ) * snapS.cache.cacheRatio) ∧
     snapS.cache.estCachedUniques =
       jsRoundQ ((snapS.totals.uniques : ℚ) * snapS.cache.cacheRatio)) :=
  ⟨rfl, rfl, rfl, C9_cache_metrics_formula envOk stEmpty [bucketA, bucketB] snapS rfl rfl rfl⟩

/-- The all-pageviews-zero test on the mapped timeseries, phrased on the raw
buckets. -/
theorem allPageviewsZero_iff (l : List RawBucket) :
    allPageviewsZero (timeseriesOf l) = true ↔ l ≠ [] ∧ ∀ b ∈ l, b.pageViews = 0 := by
  simp [allPageviewsZero, timeseriesOf, toPoint, List.length_pos]

/-- Claim C4: the zero-pageview substitution is all-or-nothing: with every
bucket's page views zero, each point gets `round(requests * 0.8)` and the
page-view total is the sum of the substituted values; with any single
non-zero page-view bucket, nothing is substituted and the raw sum stands. -/
theorem C4_substitution_all_or_nothing (env : Env) (st : CacheState)
    (buckets : List RawBucket) (snap : Snapshot)
    (hu : st.isUpdating = false) (hp : env.primary = .ok buckets)
    (hsnap : (fetchAnalyticsData env st).1 = .ok snap) :
    (buckets ≠ [] → (∀ b ∈ buckets, b.pageViews = 0) →
        snap.timeseries = (timeseriesOf buckets).map substitutePoint ∧
        (∀ p ∈ snap.timeseries, p.pageviews = jsRound08 p.requests) ∧
        snap.totals.pageviews = (snap.timeseries.map (fun p => p.pageviews)).sum) ∧
    ((∃ b ∈ buckets, b.pageViews ≠ 0) →
        snap.timeseries = timeseriesOf buckets ∧
        snap.totals.pageviews = (buckets.map (fun b => b.pageViews)).sum) := by
  rw [fetchAnalyticsData_ok env st buckets hu hp] at hsnap
  simp only [FetchOutput.ok.injEq] at hsnap
  subst hsnap
  constructor
  · intro hne hall
    have hz : allPageviewsZero (timeseriesOf buckets) = true :=
      (allPageviewsZero_iff buckets).mpr ⟨hne, hall⟩
    refine ⟨?_, ?_, ?_⟩
    · simp [buildSnapshot, applySubstitution, hz]
    · intro p hp'
      have : (buildSnapshot env buckets (geoDataOf env)).timeseries =
          (timeseriesOf buckets).map substitutePoint := by
        simp [buildSnapshot, applySubstitution, hz]
      rw [this] at hp'
      obtain ⟨q, _, rfl⟩ := List.mem_map.mp hp'
      rfl
    · simp [buildSnapshot, applySubstitution, hz]
  · intro hex
    have hz : allPageviewsZero (timeseriesOf buckets) = false := by
      rw [Bool.eq_false_iff]
      intro hcontra
      obtain ⟨b, hb, hbne⟩ := hex
      exact hbne (((allPageviewsZero_iff buckets).mp hcontra).2 b hb)
    constructor
    · simp [buildSnapshot, applySubstitution, hz]
    · simp [buildSnapshot, applySubstitution, hz, computeTotals_eq]

/-- Witness for C4: the two worked examples from the policy — `[{req 10, pv 0},
{req 20, pv 0}]` becomes `pv [8, 16]` with total 24; `[{req 10, pv 0},
{req 20, pv 5}]` is left alone with total 5. -/
theorem C4_substitution_all_or_nothing_witness :
    stEmpty.isUpdating = false ∧ envOk.primary = .ok [bucketA, bucketB] ∧
    (fetchAnalyticsData envOk stEmpty).1 = .ok snapS ∧
    [bucketA, bucketB] ≠ [] ∧ (∀ b ∈ [bucketA, bucketB], b.pageViews = 0) ∧
    (snapS.timeseries = (timeseriesOf [bucketA, bucketB]).map substitutePoint ∧
     (∀ p ∈ snapS.timeseries, p.pageviews = jsRound08 p.requests) ∧
     snapS.totals.pageviews = (snapS.timeseries.map (fun p => p.pageviews)).sum) ∧
    snapS.timeseries.map (fun p => p.pageviews) = [8, 16] ∧
    snapS.totals.pageviews = 24 ∧
    snapMixed.timeseries.map (fun p => p.pageviews) = [0, 5] ∧
    snapMixed.totals.pageviews = 5 :=
  ⟨rfl, rfl, rfl, by simp, by decide,
   (C4_substitution_all_or_nothing envOk stEmpty [bucketA, bucketB] snapS rfl rfl rfl).1
     (by simp) (by decide),
   by decide, by decide, by decide, by decide⟩

/-- Counterexample to claim C7 as stated: when the primary query fails, the
secondary (geographic) query, which in the source is awaited only after the
primary POST has succeeded, is never attempted — zero secondary POSTs are
issued even though a secondary result was available in the environment. -/
theorem C7_counterexample :
    envPrimaryFail.geo = .ok [geoB1] ∧
    stEmpty.isUpdating = false ∧
    (fetchAnalyticsData envPrimaryFail stEmpty).2.2 = ⟨1, 0⟩ ∧
    ¬ 0 < (fetchAnalyticsData envPrimaryFail stEmpty).2.2.secondary :=
  ⟨rfl, rfl, rfl, by decide⟩

/-- Claim C7, amended: a failure of the secondary query does not prevent the
primary query from being attempted nor the pipeline from completing with a
snapshot (both POSTs are issued); but a failure of the primary query aborts
the cycle before the secondary query is attempted (one primary POST, zero
secondary POSTs). -/
theorem C7_query_independence_amended (env : Env) (st : CacheState)
    (hu : st.isUpdating = false) :
    (∀ buckets, env.primary = .ok buckets →
        (fetchAnalyticsData env st).2.2 = ⟨1, 1⟩ ∧
        ∃ snap, (fetchAnalyticsData env st).1 = .ok snap) ∧
    (∀ e, env.primary = .error e →
        (fetchAnalyticsData env st).2.2 = ⟨1, 0⟩) := by
  constructor
  · intro buckets hp
    rw [fetchAnalyticsData_ok env st buckets hu hp]
    exact ⟨rfl, _, rfl⟩
  · intro e hp
    rw [fetchAnalyticsData_primaryFail env st e hu hp]

/-- Witness for the amended C7: with a failing secondary query the pipeline
still completes and issues both POSTs; with a failing primary query only the
primary POST is issued. -/
theorem C7_query_independence_amended_witness :
    stEmpty.isUpdating = false ∧
    envGeoFail.primary = .ok [bucketA, bucketB] ∧
    ((fetchAnalyticsData envGeoFail stEmpty).2.2 = ⟨1, 1⟩ ∧
     ∃ snap, (fetchAnalyticsData envGeoFail stEmpty).1 = .ok snap) ∧
    envPrimaryFail.primary = .error () ∧
    (fetchAnalyticsData envPrimaryFail stEmpty).2.2 = ⟨1, 0⟩ :=
  ⟨rfl, rfl,
   (C7_query_independence_amended envGeoFail stEmpty rfl).1 [bucketA, bucketB] rfl,
   rfl,
   (C7_query_independence_amended envPrimaryFail stEmpty rfl).2 () rfl⟩

/-! ## Status-bucket lemmas -/

theorem statusStep_sum_le (acc : HttpStatusAgg) (m : StatusEntry) :
    (statusStep acc m).s2xx + (statusStep acc m).s3xx + (statusStep acc m).s4xx +
      (statusStep acc m).s5xx ≤
      acc.s2xx + acc.s3xx + acc.s4xx + acc.s5xx + m.requests := by
  unfold statusStep
  split_ifs <;> simp <;> omega

theorem foldl_statusStep_sum_le (entries : List StatusEntry) (acc : HttpStatusAgg) :
    (entries.foldl statusStep acc).s2xx + (entries.foldl statusStep acc).s3xx +
      (entries.foldl statusStep acc).s4xx + (entries.foldl statusStep acc).s5xx ≤
      acc.s2xx + acc.s3xx + acc.s4xx + acc.s5xx +
        (entries.map (fun m => m.requests)).sum := by
  induction entries generalizing acc with
  | nil => simp
  | cons m t ih =>
    simp only [List.foldl_cons, List.map_cons, List.sum_cons]
    have h1 := ih (statusStep acc m)
    have h2 := statusStep_sum_le acc m
    omega

theorem foldl_points_sum_le (ts : List TimeseriesPoint) (acc : HttpStatusAgg) :
    (ts.foldl (fun a pt => pt.responseStatusMap.foldl statusStep a) acc).s2xx +
      (ts.foldl (fun a pt => pt.responseStatusMap.foldl statusStep a) acc).s3xx +
      (ts.foldl (fun a pt => pt.responseStatusMap.foldl statusStep a) acc).s4xx +
      (ts.foldl (fun a pt => pt.responseStatusMap.foldl statusStep a) acc).s5xx ≤
      acc.s2xx + acc.s3xx + acc.s4xx + acc.s5xx +
        (ts.map (fun pt => (pt.responseStatusMap.map (fun m => m.requests)).sum)).sum := by
  induction ts generalizing acc with
  | nil => simp
  | cons pt t ih =>
    simp only [List.foldl_cons, List.map_cons, List.sum_cons]
    have h1 := ih (pt.responseStatusMap.foldl statusStep acc)
    have h2 := foldl_statusStep_sum_le pt.responseStatusMap acc
    omega

theorem httpStatusOf_sum_le (ts : List TimeseriesPoint) :
    (httpStatusOf ts).s2xx + (httpStatusOf ts).s3xx + (httpStatusOf ts).s4xx +
      (httpStatusOf ts).s5xx ≤
      (ts.map (fun pt => (pt.responseStatusMap.map (fun m => m.requests)).sum)).sum := by
  simpa [httpStatusOf] using foldl_points_sum_le ts ⟨0, 0, 0, 0⟩

theorem comp_hist_subst :
    ((fun pt : TimeseriesPoint => (pt.responseStatusMap.map (fun m => m.requests)).sum) ∘
        substitutePoint) =
      fun pt => (pt.responseStatusMap.map (fun m => m.requests)).sum := rfl

theorem comp_hist_toPoint :
    ((fun pt : TimeseriesPoint => (pt.responseStatusMap.map (fun m => m.requests)).sum) ∘
        toPoint) =
      fun b : RawBucket => (b.responseStatusMap.map (fun m => m.requests)).sum := rfl

/-- The per-point histogram totals survive both the point construction and the
pageview substitution. -/
theorem final_ts_histSums (l : List RawBucket) :
    ((applySubstitution (timeseriesOf l) (computeTotals l)).1.map
        (fun pt => (pt.responseStatusMap.map (fun m => m.requests)).sum)).sum =
      (l.map (fun b => (b.responseStatusMap.map (fun m => m.requests)).sum)).sum := by
  by_cases hz : allPageviewsZero (timeseriesOf l) = true
  · unfold applySubstitution
    rw [if_pos hz]
    simp only [timeseriesOf, List.map_map]
    rfl
  · unfold applySubstitution
    rw [if_neg hz]
    simp only [timeseriesOf, List.map_map]
    rfl

theorem applySubstitution_requests_eq (ts : List TimeseriesPoint) (t : Totals) :
    (applySubstitution ts t).2.requests = t.requests := by
  unfold applySubstitution
  split <;> rfl

/-- A primary-window input whose status histogram claims more requests than
the bucket's own request count — nothing in the pipeline rules this out. -/
def badBucket : RawBucket :=
  { datetime := 0, requests := 0, pageViews := 0, bytes := 0, threats := 0
    uniques := 0, cachedRequests := 0, cachedBytes := 0
    responseStatusMap := [⟨200, 0, 5⟩] }

def envBad : Env := ⟨100, 30, .ok [badBucket], .ok [], siteEx⟩

def snapBad : Snapshot := buildSnapshot envBad [badBucket] []

/-- Counterexample to claim C5 as stated: on an input whose status histogram
total exceeds the bucket's request count, the four-bucket sum strictly
exceeds the aggregated total requests, so the universal invariant fails. -/
theorem C5_counterexample :
    (fetchAnalyticsData envBad stEmpty).1 = .ok snapBad ∧
    snapBad.totals.requests <
      snapBad.httpStatus.s2xx + snapBad.httpStatus.s3xx +
        snapBad.httpStatus.s4xx + snapBad.httpStatus.s5xx :=
  ⟨rfl, by decide⟩

/-- Claim C5, amended: whenever every primary-window bucket's status histogram
sums to at most that bucket's request count (true of consistent upstream
data), the four HTTP status buckets sum to at most the total requests after
aggregation; codes outside `[200, 600)` only ever lower the bucket sum. -/
theorem C5_amended_bucket_sum_le_requests (env : Env) (st : CacheState)
    (buckets : List RawBucket) (snap : Snapshot)
    (hu : st.isUpdating = false) (hp : env.primary = .ok buckets)
    (hsnap : (fetchAnalyticsData env st).1 = .ok snap)
    (hcons : ∀ b ∈ buckets,
        (b.responseStatusMap.map (fun m => m.requests)).sum ≤ b.requests) :
    snap.httpStatus.s2xx + snap.httpStatus.s3xx + snap.httpStatus.s4xx +
      snap.httpStatus.s5xx ≤ snap.totals.requests := by
  rw [fetchAnalyticsData_ok env st buckets hu hp] at hsnap
  simp only [FetchOutput.ok.injEq] at hsnap
  subst hsnap
  have h1 := httpStatusOf_sum_le
    (applySubstitution (timeseriesOf buckets) (computeTotals buckets)).1
  have h2 := final_ts_histSums buckets
  have h3 : (buckets.map (fun b => (b.responseStatusMap.map (fun m => m.requests)).sum)).sum ≤
      (buckets.map (fun b => b.requests)).sum :=
    List.sum_le_sum hcons
  have h4 : (applySubstitution (timeseriesOf buckets) (computeTotals buckets)).2.requests =
      (buckets.map (fun b => b.requests)).sum := by
    rw [applySubstitution_requests_eq, computeTotals_eq]
  show (httpStatusOf (applySubstitution (timeseriesOf buckets) (computeTotals buckets)).1).s2xx +
      (httpStatusOf (applySubstitution (timeseriesOf buckets) (computeTotals buckets)).1).s3xx +
      (httpStatusOf (applySubstitution (timeseriesOf buckets) (computeTotals buckets)).1).s4xx +
      (httpStatusOf (applySubstitution (timeseriesOf buckets) (computeTotals buckets)).1).s5xx ≤
      (applySubstitution (timeseriesOf buckets) (computeTotals buckets)).2.requests
  omega

/-- Witness for the amended C5 at a histogram-consistent input. -/
theorem C5_amended_bucket_sum_le_requests_witness :
    stEmpty.isUpdating = false ∧ envOk.primary = .ok [bucketA, bucketB] ∧
    (fetchAnalyticsData envOk stEmpty).1 = .ok snapS ∧
    (∀ b ∈ [bucketA, bucketB],
        (b.responseStatusMap.map (fun m => m.requests)).sum ≤ b.requests) ∧
    snapS.httpStatus.s2xx + snapS.httpStatus.s3xx + snapS.httpStatus.s4xx +
      snapS.httpStatus.s5xx ≤ snapS.totals.requests :=
  ⟨rfl, rfl, rfl, by decide,
   C5_amended_bucket_sum_le_requests envOk stEmpty [bucketA, bucketB] snapS rfl rfl rfl
     (by decide)⟩

/-- Sum of the request counts of the histogram entries whose effective status
code lies in `[lo, hi)`. -/
def rangeSumEntries (entries : List StatusEntry) (lo hi : Nat) : Nat :=
  (entries.map
    (fun m => if lo ≤ statusCode m ∧ statusCode m < hi then m.requests else 0)).sum

/-- The same sum accumulated across every point of the timeseries. -/
def statusRangeSum (ts : List TimeseriesPoint) (lo hi : Nat) : Nat :=
  (ts.map (fun pt => rangeSumEntries pt.responseStatusMap lo hi)).sum

theorem foldl_statusStep_eq (entries : List StatusEntry) (acc : HttpStatusAgg) :
    entries.foldl statusStep acc =
      ⟨acc.s2xx + rangeSumEntries entries 200 300,
       acc.s3xx + rangeSumEntries entries 300 400,
       acc.s4xx + rangeSumEntries entries 400 500,
       acc.s5xx + rangeSumEntries entries 500 600⟩ := by
  induction entries generalizing acc with
  | nil => simp [rangeSumEntries]
  | cons m t ih =>
    simp only [List.foldl_cons, ih, rangeSumEntries, List.map_cons, List.sum_cons]
    unfold statusStep
    split_ifs <;> simp [HttpStatusAgg.mk.injEq] <;> omega

theorem foldl_points_statusAgg (ts : List TimeseriesPoint) (acc : HttpStatusAgg) :
    ts.foldl (fun a pt => pt.responseStatusMap.foldl statusStep a) acc =
      ⟨acc.s2xx + statusRangeSum ts 200 300,
       acc.s3xx + statusRangeSum ts 300 400,
       acc.s4xx + statusRangeSum ts 400 500,
       acc.s5xx + statusRangeSum ts 500 600⟩ := by
  induction ts generalizing acc with
  | nil => simp [statusRangeSum]
  | cons pt t ih =>
    rw [List.foldl_cons, ih]
    rw [foldl_statusStep_eq pt.responseStatusMap acc]
    simp only [statusRangeSum, List.map_cons, List.sum_cons, HttpStatusAgg.mk.injEq]
    omega

/-- Closed form of the status aggregation: each bucket is exactly the sum of
request counts with effective code in the corresponding hundred-range. -/
theorem httpStatusOf_eq (ts : List TimeseriesPoint) :
    httpStatusOf ts =
      ⟨statusRangeSum ts 200 300, statusRangeSum ts 300 400,
       statusRangeSum ts 400 500, statusRangeSum ts 500 600⟩ := by
  simpa [httpStatusOf] using foldl_points_statusAgg ts ⟨0, 0, 0, 0⟩

/-- A histogram entry whose effective code is inside `[200, 600)`. -/
def statusInRange (m : StatusEntry) : Bool :=
  decide (200 ≤ statusCode m ∧ statusCode m < 600)

/-- Remove every histogram entry whose effective code is outside `[200, 600)`. -/
def dropOutOfRange (ts : List TimeseriesPoint) : List TimeseriesPoint :=
  ts.map (fun pt =>
    { pt with responseStatusMap := pt.responseStatusMap.filter statusInRange })

theorem statusStep_out_of_range (acc : HttpStatusAgg) (m : StatusEntry)
    (h : ¬(200 ≤ statusCode m ∧ statusCode m < 600)) : statusStep acc m = acc := by
  unfold statusStep
  split_ifs with h1 h2 h3 h4
  · exact absurd ⟨h1.1, by omega⟩ h
  · exact absurd ⟨by omega, by omega⟩ h
  · exact absurd ⟨by omega, by omega⟩ h
  · exact absurd ⟨by omega, by omega⟩ h
  · rfl

theorem foldl_statusStep_filter (entries : List StatusEntry) (acc : HttpStatusAgg) :
    (entries.filter statusInRange).foldl statusStep acc =
      entries.foldl statusStep acc := by
  induction entries generalizing acc with
  | nil => rfl
  | cons m t ih =>
    rw [List.filter_cons]
    by_cases hm : 200 ≤ statusCode m ∧ statusCode m < 600
    · rw [if_pos (by simpa [statusInRange] using hm)]
      rw [List.foldl_cons, List.foldl_cons]
      exact ih _
    · rw [if_neg (by simpa [statusInRange] using hm)]
      rw [List.foldl_cons, statusStep_out_of_range acc m hm]
      exact ih _

/-- Entries with codes outside `[200, 600)` contribute to no bucket: dropping
them leaves the aggregation unchanged. -/
theorem httpStatusOf_dropOutOfRange (ts : List TimeseriesPoint) :
    httpStatusOf (dropOutOfRange ts) = httpStatusOf ts := by
  unfold httpStatusOf dropOutOfRange
  rw [List.foldl_map]
  congr 1
  funext a pt
  exact foldl_statusStep_filter pt.responseStatusMap a

/-- Claim C8: each status bucket of a produced snapshot is exactly the sum of
histogram request counts whose code falls in the matching hundred-range,
accumulated across the whole primary window, and entries with codes outside
`[200, 600)` are dropped (removing them changes nothing). -/
theorem C8_status_range_classification (env : Env) (st : CacheState)
    (buckets : List RawBucket) (snap : Snapshot)
    (hu : st.isUpdating = false) (hp : env.primary = .ok buckets)
    (hsnap : (fetchAnalyticsData env st).1 = .ok snap) :
    snap.httpStatus =
      ⟨statusRangeSum snap.timeseries 200 300,
       statusRangeSum snap.timeseries 300 400,
       statusRangeSum snap.timeseries 400 500,
       statusRangeSum snap.timeseries 500 600⟩ ∧
    snap.httpStatus = httpStatusOf (dropOutOfRange snap.timeseries) := by
  rw [fetchAnalyticsData_ok env st buckets hu hp] at hsnap
  simp only [FetchOutput.ok.injEq] at hsnap
  subst hsnap
  exact ⟨httpStatusOf_eq _, (httpStatusOf_dropOutOfRange _).symm⟩

/-- Witness for C8 at a concrete run mixing all four ranges and an informational
code 100 that is dropped. -/
theorem C8_status_range_classification_witness :
    stEmpty.isUpdating = false ∧ envOk.primary = .ok [bucketA, bucketB] ∧
    (fetchAnalyticsData envOk stEmpty).1 = .ok snapS ∧
    (snapS.httpStatus =
       ⟨statusRangeSum snapS.timeseries 200 300,
        statusRangeSum snapS.timeseries 300 400,
        statusRangeSum snapS.timeseries 400 500,
        statusRangeSum snapS.timeseries 500 600⟩ ∧
     snapS.httpStatus = httpStatusOf (dropOutOfRange snapS.timeseries)) ∧
    snapS.httpStatus = ⟨7, 1, 3, 2⟩ :=
  ⟨rfl, rfl, rfl,
   C8_status_range_classification envOk stEmpty [bucketA, bucketB] snapS rfl rfl rfl,
   by decide⟩

/-! ## Country rollup lemmas -/

/-- The accumulated request count stored under key `c` (as a sum, so it is
meaningful even without a key-uniqueness assumption). -/
def keyTotal (acc : List (String × Nat)) (c : String) : Nat :=
  (acc.map (fun p => if p.1 = c then p.2 else 0)).sum

theorem keyTotal_nil (c : String) : keyTotal [] c = 0 := rfl

theorem keyTotal_cons (a : String) (b : Nat) (l : List (String × Nat)) (c : String) :
    keyTotal ((a, b) :: l) c = (if a = c then b else 0) + keyTotal l c := by
  simp [keyTotal]

theorem keyTotal_addCountry (acc : List (String × Nat)) (n : String) (r : Nat)
    (c : String) :
    keyTotal (addCountry acc n r) c = keyTotal acc c + (if n = c then r else 0) := by
  induction acc with
  | nil =>
    simp only [addCountry, keyTotal_cons, keyTotal_nil]
    omega
  | cons p rest ih =>
    obtain ⟨k, v⟩ := p
    by_cases hk : k = n
    · subst hk
      have hstep : addCountry ((k, v) :: rest) k r = (k, v + r) :: rest := by
        simp [addCountry]
      rw [hstep, keyTotal_cons, keyTotal_cons]
      split_ifs <;> omega
    · have hstep : addCountry ((k, v) :: rest) n r = (k, v) :: addCountry rest n r := by
        simp [addCountry, hk]
      rw [hstep, keyTotal_cons, keyTotal_cons, ih]
      omega

/-- The per-country total over a flat list of country histogram entries. -/
def flatTotal (L : List GeoCountry) (c : String) : Nat :=
  (L.map (fun x => if x.clientCountryName = c then x.requests else 0)).sum

/-- The key list after an `addCountry` step: unchanged for an existing key,
the new key appended otherwise. -/
theorem keys_addCountry (acc : List (String × Nat)) (n : String) (r : Nat) :
    (addCountry acc n r).map Prod.fst =
      if n ∈ acc.map Prod.fst then acc.map Prod.fst
      else acc.map Prod.fst ++ [n] := by
  induction acc with
  | nil => simp [addCountry]
  | cons p rest ih =>
    obtain ⟨k, v⟩ := p
    by_cases hk : k = n
    · subst hk
      simp [addCountry]
    · have hk' : ¬n = k := fun h => hk h.symm
      by_cases hmem : n ∈ rest.map Prod.fst
      · simp [addCountry, hk, ih, hmem, hk']
      · simp [addCountry, hk, ih, hmem, hk']

theorem keys_nodup_addCountry (acc : List (String × Nat)) (n : String) (r : Nat)
    (h : (acc.map Prod.fst).Nodup) : ((addCountry acc n r).map Prod.fst).Nodup := by
  rw [keys_addCountry]
  split_ifs with hmem
  · exact h
  · simp [List.nodup_append, h, hmem]

theorem keyTotal_eq_zero_of_not_mem (acc : List (String × Nat)) (c : String)
    (h : ¬c ∈ acc.map Prod.fst) : keyTotal acc c = 0 := by
  induction acc with
  | nil => rfl
  | cons p rest ih =>
    obtain ⟨k, v⟩ := p
    simp only [List.map_cons, List.mem_cons, not_or] at h
    rw [keyTotal_cons, if_neg (fun hkc => h.1 hkc.symm), ih h.2]

theorem keyTotal_of_mem_nodup (acc : List (String × Nat)) (c : String) (t : Nat)
    (hnd : (acc.map Prod.fst).Nodup) (hmem : (c, t) ∈ acc) : keyTotal acc c = t := by
  induction acc with
  | nil => cases hmem
  | cons p rest ih =>
    obtain ⟨k, v⟩ := p
    simp only [List.map_cons, List.nodup_cons] at hnd
    rcases List.mem_cons.mp hmem with heq | hmem'
    · have h1 : c = k := congrArg Prod.fst heq
      have h2 : t = v := congrArg Prod.snd heq
      subst h1
      subst h2
      rw [keyTotal_cons, if_pos rfl, keyTotal_eq_zero_of_not_mem rest c hnd.1]
      omega
    · have hc : c ∈ rest.map Prod.fst := List.mem_map.mpr ⟨(c, t), hmem', rfl⟩
      have hkc : ¬k = c := fun h => hnd.1 (h ▸ hc)
      rw [keyTotal_cons, if_neg hkc, ih hnd.2 hmem']
      omega

/-- The per-country request total across the secondary window, read directly
off the raw buckets. -/
def countryRequestsIn (g : List GeoBucket) (c : String) : Nat :=
  (g.map (fun b => flatTotal b.countryMap c)).sum

theorem countryTotalsOf_eq_flat (g : List GeoBucket) (acc : List (String × Nat)) :
    g.foldl
        (fun acc b =>
          b.countryMap.foldl
            (fun a c => addCountry a c.clientCountryName c.requests) acc) acc =
      ((g.map (fun b => b.countryMap)).join).foldl
        (fun a c => addCountry a c.clientCountryName c.requests) acc := by
  induction g generalizing acc with
  | nil => rfl
  | cons b t ih =>
    simp only [List.foldl_cons, List.map_cons, List.join_cons, List.foldl_append]
    exact ih _

theorem foldl_addCountry_keyTotal (L : List GeoCountry) (acc : List (String × Nat))
    (c : String) :
    keyTotal (L.foldl (fun a x => addCountry a x.clientCountryName x.requests) acc) c =
      keyTotal acc c + flatTotal L c := by
  induction L generalizing acc with
  | nil => simp [flatTotal]
  | cons x t ih =>
    simp only [List.foldl_cons]
    rw [ih, keyTotal_addCountry]
    simp only [flatTotal, List.map_cons, List.sum_cons]
    omega

theorem foldl_addCountry_keys_nodup (L : List GeoCountry) (acc : List (String × Nat))
    (h : (acc.map Prod.fst).Nodup) :
    ((L.foldl (fun a x => addCountry a x.clientCountryName x.requests) acc).map
        Prod.fst).Nodup := by
  induction L generalizing acc with
  | nil => exact h
  | cons x t ih => exact ih _ (keys_nodup_addCountry acc _ _ h)

theorem flatTotal_append (L L' : List GeoCountry) (c : String) :
    flatTotal (L ++ L') c = flatTotal L c + flatTotal L' c := by
  simp [flatTotal]

theorem flatTotal_join (Ls : List (List GeoCountry)) (c : String) :
    flatTotal Ls.join c = (Ls.map (fun L => flatTotal L c)).sum := by
  induction Ls with
  | nil => rfl
  | cons L t ih => simp [List.join_cons, flatTotal_append, ih]

theorem countryTotalsOf_keyTotal (g : List GeoBucket) (c : String) :
    keyTotal (countryTotalsOf g) c = countryRequestsIn g c := by
  unfold countryTotalsOf
  rw [countryTotalsOf_eq_flat, foldl_addCountry_keyTotal, keyTotal_nil,
      flatTotal_join, List.map_map]
  rw [Nat.zero_add]
  rfl

theorem countryTotalsOf_keys_nodup (g : List GeoBucket) :
    ((countryTotalsOf g).map Prod.fst).Nodup := by
  unfold countryTotalsOf
  rw [countryTotalsOf_eq_flat]
  exact foldl_addCountry_keys_nodup _ [] (by simp)

theorem mem_countryTotalsOf_val (g : List GeoBucket) (c : String) (t : Nat)
    (h : (c, t) ∈ countryTotalsOf g) : t = countryRequestsIn g c := by
  rw [← countryTotalsOf_keyTotal g c]
  exact (keyTotal_of_mem_nodup _ c t (countryTotalsOf_keys_nodup g) h).symm

theorem insertDesc_perm (x : CountryRollupEntry) (l : List CountryRollupEntry) :
    List.Perm (insertDesc x l) (x :: l) := by
  induction l with
  | nil => exact List.Perm.refl _
  | cons y ys ih =>
    unfold insertDesc
    split
    · exact List.Perm.refl _
    · exact (ih.cons y).trans (List.Perm.swap x y ys)

theorem sortDesc_perm (l : List CountryRollupEntry) :
    List.Perm (sortDescRequests l) l := by
  induction l with
  | nil => exact List.Perm.refl _
  | cons x xs ih => exact (insertDesc_perm x _).trans (ih.cons x)

theorem pairwise_insertDesc (x : CountryRollupEntry) (l : List CountryRollupEntry)
    (h : List.Pairwise (fun a b => b.requests ≤ a.requests) l) :
    List.Pairwise (fun a b => b.requests ≤ a.requests) (insertDesc x l) := by
  induction l with
  | nil => simp [insertDesc]
  | cons y ys ih =>
    rw [List.pairwise_cons] at h
    obtain ⟨hy, hys⟩ := h
    unfold insertDesc
    split_ifs with hcond
    · refine List.Pairwise.cons ?_ (List.Pairwise.cons hy hys)
      intro z hz
      rcases List.mem_cons.mp hz with rfl | hz'
      · omega
      · have := hy z hz'
        omega
    · refine List.Pairwise.cons ?_ (ih hys)
      intro z hz
      rcases List.mem_cons.mp ((insertDesc_perm x ys).mem_iff.mp hz) with rfl | hz2
      · omega
      · exact hy z hz2

theorem pairwise_sortDesc (l : List CountryRollupEntry) :
    List.Pairwise (fun a b => b.requests ≤ a.requests) (sortDescRequests l) := by
  induction l with
  | nil => exact List.Pairwise.nil
  | cons x xs ih => exact pairwise_insertDesc x _ ih

/-- A secondary-window bucket with a request-count tie between two countries,
to exhibit the stable tie-break. -/
def geoTie : GeoBucket := ⟨[⟨"A", 50⟩, ⟨"B", 100⟩, ⟨"C", 50⟩]⟩

/-- Claim C6: the geographic rollup sums request counts per country across
the whole secondary window, estimates page views as `round(requests * 0.8)`,
is sorted descending by requests, is truncated to at most 10 entries, and
breaks ties by first-insertion order (stable sort): `{US 100, DE 50, FR 200}`
rolls up to `[FR, US, DE]`, and the tied `{A 50, B 100, C 50}` keeps `A`
before `C`. -/
theorem C6_country_rollup :
    (∀ g : List GeoBucket,
       List.Pairwise (fun a b => b.requests ≤ a.requests) (geographicOf g) ∧
       (geographicOf g).length ≤ 10 ∧
       (∀ e ∈ geographicOf g,
          e.pageviews = jsRound08 e.requests ∧
          e.requests = countryRequestsIn g e.country)) ∧
    geographicOf [geoB1] = [⟨"FR", 200, 160⟩, ⟨"US", 100, 80⟩, ⟨"DE", 50, 40⟩] ∧
    geographicOf [geoTie] = [⟨"B", 100, 80⟩, ⟨"A", 50, 40⟩, ⟨"C", 50, 40⟩] := by
  refine ⟨?_, by decide, by decide⟩
  intro g
  refine ⟨?_, ?_, ?_⟩
  · exact List.Pairwise.sublist (List.take_sublist _ _) (pairwise_sortDesc _)
  · simp only [geographicOf, List.length_take]
    omega
  · intro e he
    have he1 : e ∈ sortDescRequests ((countryTotalsOf g).map mkRollupEntry) :=
      List.take_subset _ _ he
    have he2 : e ∈ (countryTotalsOf g).map mkRollupEntry :=
      (sortDesc_perm _).mem_iff.mp he1
    obtain ⟨p, hpmem, rfl⟩ := List.mem_map.mp he2
    obtain ⟨c, t⟩ := p
    exact ⟨rfl, mem_countryTotalsOf_val g c t hpmem⟩

/-- Witness for C6: the top entry of the worked example, with its page-view
estimate and per-country total read off the theorem. -/
theorem C6_country_rollup_witness :
    ((⟨"FR", 200, 160⟩ : CountryRollupEntry) ∈ geographicOf [geoB1]) ∧
    ((⟨"FR", 200, 160⟩ : CountryRollupEntry).pageviews =
       jsRound08 (⟨"FR", 200, 160⟩ : CountryRollupEntry).requests ∧
     (⟨"FR", 200, 160⟩ : CountryRollupEntry).requests =
       countryRequestsIn [geoB1] (⟨"FR", 200, 160⟩ : CountryRollupEntry).country) :=
  ⟨by decide, (C6_country_rollup.1 [geoB1]).2.2 _ (by decide)⟩
